import Mathlib

/-!
Verification development for the openhue-mcp-server adapter
(`src/index.ts`).  The server exposes six MCP tools; each call-tool
request is validated with a zod schema (for the three write tools),
mapped to a command line for the external OpenHue CLI, wrapped in a
fixed `docker run` prefix, executed, and the result shaped into a
protocol response.  The definitions below transcribe that pipeline:
argument values, the zod validation of the three declared schemas, the
JSON input schemas advertised by the list-tools handler, the command
builders of each `case` branch, the `executeHueCommand` helper, and the
dispatcher `switch` with its catch block.
-/

namespace OpenHue

/-- A raw JSON argument value as it arrives over the protocol,
restricted to the two scalar shapes the schemas distinguish:
strings and numbers (numbers modelled as `Int`). -/
inductive Value where
  | str (s : String)
  | num (n : Int)
deriving DecidableEq

/-- The raw argument bag of a call-tool request: every field any of the
six tools ever reads, each possibly absent. -/
structure RawArgs where
  target : Option Value := none
  action : Option Value := none
  brightness : Option Value := none
  color : Option Value := none
  temperature : Option Value := none
  lightId : Option Value := none
  room : Option Value := none
  roomId : Option Value := none
  name : Option Value := none
  mode : Option Value := none
deriving DecidableEq

/-- One zod validation issue: the offending field's path and a
human-readable message, as used by the dispatcher's catch block
(`e.path.join(".")` and `e.message`). -/
structure Issue where
  path : String
  msg : String
deriving DecidableEq

/-- Models `z.string()` on a required field: absent or non-string
values produce an issue, any string (empty included) passes. -/
def checkRequiredString (path : String) : Option Value → Option Issue
  | none => some ⟨path, "Required"⟩
  | some (.num _) => some ⟨path, "Expected string, received number"⟩
  | some (.str _) => none

/-- Models `z.string().optional()`: absent passes, a non-string value
produces an issue, any string passes. -/
def checkOptionalString (path : String) : Option Value → Option Issue
  | none => none
  | some (.num _) => some ⟨path, "Expected string, received number"⟩
  | some (.str _) => none

/-- Models `z.enum(values)` on a required field. -/
def checkRequiredEnum (values : List String) (path : String) :
    Option Value → Option Issue
  | none => some ⟨path, "Required"⟩
  | some (.num _) => some ⟨path, "Invalid enum value, received number"⟩
  | some (.str s) =>
    if s ∈ values then none else some ⟨path, "Invalid enum value, received " ++ s⟩

/-- Models `z.enum(values).optional()`. -/
def checkOptionalEnum (values : List String) (path : String) :
    Option Value → Option Issue
  | none => none
  | some (.num _) => some ⟨path, "Invalid enum value, received number"⟩
  | some (.str s) =>
    if s ∈ values then none else some ⟨path, "Invalid enum value, received " ++ s⟩

/-- Models `z.number().min(lo).max(hi).optional()`: the bounds are
inclusive, and zod reports the first violated bound for the field. -/
def checkOptionalNumRange (lo hi : Int) (path : String) :
    Option Value → Option Issue
  | none => none
  | some (.str _) => some ⟨path, "Expected number, received string"⟩
  | some (.num n) =>
    if n < lo then some ⟨path, "Number must be greater than or equal to " ++ toString lo⟩
    else if hi < n then some ⟨path, "Number must be less than or equal to " ++ toString hi⟩
    else none

/-- All issues `LightActionSchema.parse` collects on a raw bag, in field
declaration order (zod object parsing checks every field and aggregates
the issues rather than stopping at the first). -/
def lightIssues (a : RawArgs) : List Issue :=
  (checkRequiredString "target" a.target).toList ++
  (checkRequiredEnum ["on", "off"] "action" a.action).toList ++
  (checkOptionalNumRange 0 100 "brightness" a.brightness).toList ++
  (checkOptionalString "color" a.color).toList ++
  (checkOptionalNumRange 153 500 "temperature" a.temperature).toList

/-- All issues `RoomActionSchema.parse` collects; the schema is
declared identically to `LightActionSchema`. -/
def roomIssues (a : RawArgs) : List Issue :=
  (checkRequiredString "target" a.target).toList ++
  (checkRequiredEnum ["on", "off"] "action" a.action).toList ++
  (checkOptionalNumRange 0 100 "brightness" a.brightness).toList ++
  (checkOptionalString "color" a.color).toList ++
  (checkOptionalNumRange 153 500 "temperature" a.temperature).toList

/-- All issues `SceneActionSchema.parse` collects. -/
def sceneIssues (a : RawArgs) : List Issue :=
  (checkRequiredString "name" a.name).toList ++
  (checkOptionalString "room" a.room).toList ++
  (checkOptionalEnum ["active", "dynamic", "static"] "mode" a.mode).toList

/-- The string content of a value (only consulted on fields whose
checks passed, hence on `.str` values for string fields). -/
def asStr : Option Value → String
  | some (.str s) => s
  | _ => ""

/-- The optional string content of a value. -/
def asOptStr : Option Value → Option String
  | some (.str s) => some s
  | _ => none

/-- The optional numeric content of a value. -/
def asOptInt : Option Value → Option Int
  | some (.num n) => some n
  | _ => none

/-- The typed record produced by a successful
`LightActionSchema.parse` / `RoomActionSchema.parse`. -/
structure LightParams where
  target : String
  action : String
  brightness : Option Int
  color : Option String
  temperature : Option Int
deriving DecidableEq

/-- The typed record produced by a successful
`SceneActionSchema.parse`. -/
structure SceneParams where
  name : String
  room : Option String
  mode : Option String
deriving DecidableEq

/-- `LightActionSchema.parse(args)`: all collected issues, or the typed
record when there are none. -/
def lightParse (a : RawArgs) : Except (List Issue) LightParams :=
  if lightIssues a = [] then
    .ok ⟨asStr a.target, asStr a.action, asOptInt a.brightness,
         asOptStr a.color, asOptInt a.temperature⟩
  else .error (lightIssues a)

/-- `RoomActionSchema.parse(args)`. -/
def roomParse (a : RawArgs) : Except (List Issue) LightParams :=
  if roomIssues a = [] then
    .ok ⟨asStr a.target, asStr a.action, asOptInt a.brightness,
         asOptStr a.color, asOptInt a.temperature⟩
  else .error (roomIssues a)

/-- `SceneActionSchema.parse(args)`. -/
def sceneParse (a : RawArgs) : Except (List Issue) SceneParams :=
  if sceneIssues a = [] then
    .ok ⟨asStr a.name, asOptStr a.room, asOptStr a.mode⟩
  else .error (sceneIssues a)

/-- `getConfigPath()`: `path.join(homedir(), '.openhue')`, modelled for
a POSIX home directory as appending the fixed subdirectory. -/
def configPath (homeDir : String) : String :=
  homeDir ++ "/.openhue"

/-- `buildDockerCommand(command)`: the fixed container-run prefix
wrapped around a subcommand, with the configuration directory mounted. -/
def buildDockerCommand (homeDir command : String) : String :=
  "docker run -v \"" ++ configPath homeDir ++ ":/.openhue\" --rm openhue/cli " ++ command

/-- JavaScript truthiness of a possibly-absent argument value, as used
by the handlers' `if (args?.field)` and `if (params.field)` tests:
`undefined`, the empty string and the number `0` are falsy. -/
def truthy : Option Value → Bool
  | none => false
  | some (.str s) => decide (s ≠ "")
  | some (.num n) => decide (n ≠ 0)

/-- Template-literal interpolation `${v}` of a raw argument value. -/
def valStr : Option Value → String
  | some (.str s) => s
  | some (.num n) => toString n
  | none => "undefined"

/-- The `get-lights` branch: `get light`, the optional quoted light id,
the optional quoted `--room` filter, then `--json`. -/
def getLightsCommand (lightId room : Option Value) : String :=
  "get light" ++
  (if truthy lightId then " \"" ++ valStr lightId ++ "\"" else "") ++
  (if truthy room then " --room \"" ++ valStr room ++ "\"" else "") ++
  " --json"

/-- The `get-rooms` branch: `get room`, the optional quoted room id,
then `--json`. -/
def getRoomsCommand (roomId : Option Value) : String :=
  "get room" ++
  (if truthy roomId then " \"" ++ valStr roomId ++ "\"" else "") ++
  " --json"

/-- The `get-scenes` branch: `get scene`, the optional quoted `--room`
filter, then `--json`. -/
def getScenesCommand (room : Option Value) : String :=
  "get scene" ++
  (if truthy room then " --room \"" ++ valStr room ++ "\"" else "") ++
  " --json"

/-- The brightness flag appended by the control handlers: added exactly
when `params.brightness !== undefined`, so a defined `0` is kept. -/
def brightnessPart : Option Int → String
  | some b => " --brightness " ++ toString b
  | none => ""

/-- The color flag appended by the control handlers: guarded by
truthiness (`if (params.color)`), so an empty string is dropped, and
the value is interpolated without quotes. -/
def colorPart : Option String → String
  | some c => if c = "" then "" else " --color " ++ c
  | none => ""

/-- The temperature flag appended by the control handlers: guarded by
truthiness (`if (params.temperature)`), so a defined `0` would be
dropped; the value is interpolated without quotes. -/
def temperaturePart : Option Int → String
  | some t => if t = 0 then "" else " --temperature " ++ toString t
  | none => ""

/-- The `control-light` branch's command:
`set light "${target}" --${action}` followed by the optional flags. -/
def controlLightCommand (p : LightParams) : String :=
  "set light \"" ++ p.target ++ "\" --" ++ p.action ++
  brightnessPart p.brightness ++ colorPart p.color ++ temperaturePart p.temperature

/-- The `control-room` branch's command:
`set room "${target}" --${action}` followed by the optional flags. -/
def controlRoomCommand (p : LightParams) : String :=
  "set room \"" ++ p.target ++ "\" --" ++ p.action ++
  brightnessPart p.brightness ++ colorPart p.color ++ temperaturePart p.temperature

/-- The optional quoted `--room` flag of the `activate-scene` branch,
guarded by truthiness of `params.room`. -/
def sceneRoomPart : Option String → String
  | some r => if r = "" then "" else " --room \"" ++ r ++ "\""
  | none => ""

/-- The optional `--action <mode>` flag of the `activate-scene` branch,
guarded by truthiness of `params.mode`; the mode is interpolated
without quotes. -/
def sceneModePart : Option String → String
  | some m => if m = "" then "" else " --action " ++ m
  | none => ""

/-- The `activate-scene` branch's command: `set scene "${name}"`
followed by the optional room and mode flags. -/
def activateSceneCommand (p : SceneParams) : String :=
  "set scene \"" ++ p.name ++ "\"" ++ sceneRoomPart p.room ++ sceneModePart p.mode

/-- The observable outcome of the single subprocess run: exit status
and captured output streams. -/
structure ProcOutcome where
  exitCode : Nat
  stdout : String
  stderr : String
deriving DecidableEq

/-- `promisify(exec)` on the docker-wrapped command line: on a non-zero
exit status Node rejects with an error whose message is
`Command failed: <cmd>\n<stderr>`; otherwise it resolves with both
captured streams. -/
def execAsyncResult (cmd : String) (o : ProcOutcome) : Except String (String × String) :=
  if o.exitCode ≠ 0 then
    .error ("Command failed: " ++ cmd ++ "\n" ++ o.stderr)
  else .ok (o.stdout, o.stderr)

/-- `executeHueCommand(command)`: run the docker-wrapped command; a
rejection propagates, and a resolved run with non-empty stderr is
turned into `throw new Error(stderr)`; otherwise stdout is returned. -/
def executeHueCommand (homeDir command : String) (o : ProcOutcome) : Except String String :=
  match execAsyncResult (buildDockerCommand homeDir command) o with
  | .error e => .error e
  | .ok (out, err) => if err ≠ "" then .error err else .ok out

/-- The subcommand a call-tool request builds, mirroring the dispatcher
`switch`: `none` when validation throws first (write tools) or the
tool name is unknown; the three get tools build without validation. -/
def builtCommand (tool : String) (a : RawArgs) : Option String :=
  if tool = "get-lights" then some (getLightsCommand a.lightId a.room)
  else if tool = "control-light" then
    match lightParse a with
    | .ok p => some (controlLightCommand p)
    | .error _ => none
  else if tool = "get-rooms" then some (getRoomsCommand a.roomId)
  else if tool = "control-room" then
    match roomParse a with
    | .ok p => some (controlRoomCommand p)
    | .error _ => none
  else if tool = "get-scenes" then some (getScenesCommand a.room)
  else if tool = "activate-scene" then
    match sceneParse a with
    | .ok p => some (activateSceneCommand p)
    | .error _ => none
  else none

/-- `${e.path.join(".")}: ${e.message}` for one zod issue (every path
here is a single field name). -/
def issueText (i : Issue) : String :=
  i.path ++ ": " ++ i.msg

/-- `error.errors.map(...).join(", ")`: the issue texts joined with
comma-space, as the dispatcher's catch block formats a `ZodError`. -/
def joinIssues : List Issue → String
  | [] => ""
  | [i] => issueText i
  | i :: is => issueText i ++ ", " ++ joinIssues is

/-- The message of the error the catch block throws for a `ZodError`. -/
def invalidArgumentsMessage (issues : List Issue) : String :=
  "Invalid arguments: " ++ joinIssues issues

/-- The full call-tool dispatcher: validate (write tools), build,
execute, and shape the response; every failure becomes a single
protocol-level error message via the catch block.  Read tools return
the captured stdout verbatim; write tools discard it and return the
fixed confirmation text. -/
def respond (homeDir tool : String) (a : RawArgs) (o : ProcOutcome) : Except String String :=
  if tool = "get-lights" then
    executeHueCommand homeDir (getLightsCommand a.lightId a.room) o
  else if tool = "control-light" then
    match lightParse a with
    | .error is => .error (invalidArgumentsMessage is)
    | .ok p =>
      match executeHueCommand homeDir (controlLightCommand p) o with
      | .error e => .error e
      | .ok _ => .ok ("Successfully set light \"" ++ p.target ++ "\" to " ++ p.action)
  else if tool = "get-rooms" then
    executeHueCommand homeDir (getRoomsCommand a.roomId) o
  else if tool = "control-room" then
    match roomParse a with
    | .error is => .error (invalidArgumentsMessage is)
    | .ok p =>
      match executeHueCommand homeDir (controlRoomCommand p) o with
      | .error e => .error e
      | .ok _ => .ok ("Successfully set room \"" ++ p.target ++ "\" to " ++ p.action)
  else if tool = "get-scenes" then
    executeHueCommand homeDir (getScenesCommand a.room) o
  else if tool = "activate-scene" then
    match sceneParse a with
    | .error is => .error (invalidArgumentsMessage is)
    | .ok p =>
      match executeHueCommand homeDir (activateSceneCommand p) o with
      | .error e => .error e
      | .ok _ => .ok ("Successfully activated scene \"" ++ p.name ++ "\"")
  else .error ("Unknown tool: " ++ tool)

/-- JSON Schema: a present field of `type: "string"`. -/
def jsonString : Option Value → Bool
  | some (.str _) => true
  | _ => false

/-- JSON Schema: an optional field of `type: "string"` (absent is
fine, a present value must be a string). -/
def jsonOptString : Option Value → Bool
  | none => true
  | some (.str _) => true
  | some (.num _) => false

/-- JSON Schema: a present field of `type: "string"` with an `enum`. -/
def jsonEnum (values : List String) : Option Value → Bool
  | some (.str s) => decide (s ∈ values)
  | _ => false

/-- JSON Schema: an optional field of `type: "string"` with an
`enum`. -/
def jsonOptEnum (values : List String) : Option Value → Bool
  | none => true
  | some (.str s) => decide (s ∈ values)
  | some (.num _) => false

/-- JSON Schema: an optional field of `type: "number"` with inclusive
`minimum` and `maximum`. -/
def jsonOptNumRange (lo hi : Int) : Option Value → Bool
  | none => true
  | some (.str _) => false
  | some (.num n) => decide (lo ≤ n ∧ n ≤ hi)

/-- The `inputSchema` advertised for `get-lights`: optional string
`lightId` and `room`, nothing required. -/
def jsonOkGetLights (a : RawArgs) : Bool :=
  jsonOptString a.lightId && jsonOptString a.room

/-- The `inputSchema` advertised for `control-light`: required string
`target`, required enum `action`, optional bounded numbers
`brightness` and `temperature`, optional string `color`. -/
def jsonOkControlLight (a : RawArgs) : Bool :=
  jsonString a.target && jsonEnum ["on", "off"] a.action &&
  jsonOptNumRange 0 100 a.brightness && jsonOptString a.color &&
  jsonOptNumRange 153 500 a.temperature

/-- The `inputSchema` advertised for `get-rooms`. -/
def jsonOkGetRooms (a : RawArgs) : Bool :=
  jsonOptString a.roomId

/-- The `inputSchema` advertised for `control-room` (identical in
shape to `control-light`). -/
def jsonOkControlRoom (a : RawArgs) : Bool :=
  jsonString a.target && jsonEnum ["on", "off"] a.action &&
  jsonOptNumRange 0 100 a.brightness && jsonOptString a.color &&
  jsonOptNumRange 153 500 a.temperature

/-- The `inputSchema` advertised for `get-scenes`. -/
def jsonOkGetScenes (a : RawArgs) : Bool :=
  jsonOptString a.room

/-- The `inputSchema` advertised for `activate-scene`: required string
`name`, optional string `room`, optional enum `mode`. -/
def jsonOkActivateScene (a : RawArgs) : Bool :=
  jsonString a.name && jsonOptString a.room &&
  jsonOptEnum ["active", "dynamic", "static"] a.mode

/-- POSIX-style word splitting of a built command line, restricted to
the two features these command strings use: a space separates
arguments when outside double quotes, and double quotes group their
content (spaces included) into the surrounding argument.  `cur` is the
argument accumulated so far, `inQ` whether we are inside quotes. -/
def tokenizeAux : List Char → Bool → List Char → List (List Char)
  | [], _, cur => if cur.isEmpty then [] else [cur]
  | c :: rest, inQ, cur =>
    if c = '"' then tokenizeAux rest (!inQ) cur
    else if c = ' ' then
      if inQ then tokenizeAux rest inQ (cur ++ [c])
      else if cur.isEmpty then tokenizeAux rest inQ []
      else cur :: tokenizeAux rest inQ []
    else tokenizeAux rest inQ (cur ++ [c])

/-- Parse a built command string into the argument list a shell would
hand to the external tool. -/
def tokenize (s : String) : List String :=
  (tokenizeAux s.data false []).map String.mk

/-- `pat` occurs contiguously inside `s`. -/
def containsStr (s pat : String) : Prop :=
  ∃ p q : List Char, s.data = p ++ (pat.data ++ q)

/-- Boolean prefix test on character lists. -/
def prefB : List Char → List Char → Bool
  | [], _ => true
  | _ :: _, [] => false
  | a :: as, b :: bs => a == b && prefB as bs

/-- Boolean contiguous-occurrence test on character lists. -/
def subB (pat : List Char) : List Char → Bool
  | [] => prefB pat []
  | b :: rest => prefB pat (b :: rest) || subB pat rest

/-- Number of occurrences of a token in a parsed argument list. -/
def countTok (tok : String) : List String → Nat
  | [] => 0
  | a :: l => (if a = tok then 1 else 0) + countTok tok l

/-!  General lemmas: correctness of the substring test, occurrence
lemmas for `containsStr`, and evaluation lemmas for `tokenize`. -/

theorem prefB_iff (p : List Char) : ∀ l : List Char, prefB p l = true ↔ ∃ q, l = p ++ q := by
  induction p with
  | nil => intro l; simp [prefB]
  | cons a as ih =>
    intro l
    cases l with
    | nil =>
      simp [prefB]
    | cons b bs =>
      simp only [prefB, Bool.and_eq_true, beq_iff_eq, ih, List.cons_append, List.cons.injEq]
      constructor
      · rintro ⟨rfl, q, rfl⟩
        exact ⟨q, rfl, rfl⟩
      · rintro ⟨q, rfl, rfl⟩
        exact ⟨rfl, q, rfl⟩

theorem subB_iff (pat : List Char) : ∀ l : List Char, subB pat l = true ↔ ∃ p q, l = p ++ (pat ++ q) := by
  intro l
  induction l with
  | nil =>
    simp only [subB, prefB_iff]
    constructor
    · rintro ⟨q, h⟩
      exact ⟨[], q, h⟩
    · rintro ⟨p, q, h⟩
      rcases List.append_eq_nil.mp h.symm with ⟨rfl, h2⟩
      exact ⟨q, h2.symm⟩
  | cons b bs ih =>
    simp only [subB, Bool.or_eq_true, prefB_iff, ih]
    constructor
    · rintro (⟨q, h⟩ | ⟨p, q, h⟩)
      · exact ⟨[], q, h⟩
      · exact ⟨b :: p, q, by simp [h]⟩
    · rintro ⟨p, q, h⟩
      cases p with
      | nil => exact Or.inl ⟨q, by simpa using h⟩
      | cons c p' =>
        rw [List.cons_append] at h
        injection h with hbc htl
        exact Or.inr ⟨p', q, htl⟩

theorem containsStr_iff (s pat : String) : containsStr s pat ↔ subB pat.data s.data = true :=
  (subB_iff pat.data s.data).symm

theorem containsStr_self (s : String) : containsStr s s :=
  ⟨[], [], by simp⟩

theorem containsStr_left (pat y : String) : containsStr (pat ++ y) pat :=
  ⟨[], y.data, by simp [String.data_append]⟩

theorem containsStr_right (x pat : String) : containsStr (x ++ pat) pat :=
  ⟨x.data, [], by simp [String.data_append]⟩

theorem containsStr_append_right {s pat : String} (h : containsStr s pat) (y : String) :
    containsStr (s ++ y) pat := by
  obtain ⟨p, q, hp⟩ := h
  exact ⟨p, q ++ y.data, by simp [String.data_append, hp]⟩

theorem containsStr_append_left (x : String) {s pat : String} (h : containsStr s pat) :
    containsStr (x ++ s) pat := by
  obtain ⟨p, q, hp⟩ := h
  exact ⟨x.data ++ p, q, by simp [String.data_append, hp]⟩

theorem containsStr_trans {s t u : String} (h1 : containsStr s t) (h2 : containsStr t u) :
    containsStr s u := by
  obtain ⟨p, q, hp⟩ := h1
  obtain ⟨p', q', hp'⟩ := h2
  exact ⟨p ++ p', q' ++ q, by simp [hp, hp', List.append_assoc]⟩

theorem mem_joinIssues : ∀ (is : List Issue) (i : Issue), i ∈ is → containsStr (joinIssues is) (issueText i) := by
  intro is
  induction is with
  | nil => intro i hi; simp at hi
  | cons j tl ih =>
    intro i hi
    cases tl with
    | nil =>
      rcases List.mem_singleton.mp hi with rfl
      exact containsStr_self _
    | cons k tl' =>
      rcases List.mem_cons.mp hi with rfl | hmem
      · show containsStr ((issueText i ++ ", ") ++ joinIssues (k :: tl')) (issueText i)
        exact containsStr_append_right (containsStr_left _ _) _
      · show containsStr ((issueText j ++ ", ") ++ joinIssues (k :: tl')) (issueText i)
        exact containsStr_append_left _ (ih i hmem)

theorem issueText_path (i : Issue) : containsStr (issueText i) i.path := by
  show containsStr ((i.path ++ ": ") ++ i.msg) i.path
  exact containsStr_append_right (containsStr_left _ _) _

theorem issueText_msg (i : Issue) : containsStr (issueText i) i.msg := by
  show containsStr ((i.path ++ ": ") ++ i.msg) i.msg
  exact containsStr_right _ _

theorem tokenizeAux_inQuote (s : List Char) : ∀ (cur rest : List Char),
    (∀ c ∈ s, c ≠ '"') →
    tokenizeAux (s ++ rest) true cur = tokenizeAux rest true (cur ++ s) := by
  induction s with
  | nil => intro cur rest _; simp
  | cons c s ih =>
    intro cur rest h
    have hc : c ≠ '"' := h c (List.mem_cons_self ..)
    have hs : ∀ x ∈ s, x ≠ '"' := fun x hx => h x (List.mem_cons_of_mem _ hx)
    show tokenizeAux (c :: (s ++ rest)) true cur = _
    rw [show tokenizeAux (c :: (s ++ rest)) true cur =
          tokenizeAux (s ++ rest) true (cur ++ [c]) by
        simp only [tokenizeAux, if_neg hc]
        by_cases hsp : c = ' ' <;> simp [hsp]]
    rw [ih (cur ++ [c]) rest hs]
    simp

theorem tokenizeAux_word (s : List Char) : ∀ (cur rest : List Char),
    (∀ c ∈ s, c ≠ '"' ∧ c ≠ ' ') →
    tokenizeAux (s ++ rest) false cur = tokenizeAux rest false (cur ++ s) := by
  induction s with
  | nil => intro cur rest _; simp
  | cons c s ih =>
    intro cur rest h
    have hc : c ≠ '"' := (h c (List.mem_cons_self ..)).1
    have hsp : c ≠ ' ' := (h c (List.mem_cons_self ..)).2
    have hs : ∀ x ∈ s, x ≠ '"' ∧ x ≠ ' ' := fun x hx => h x (List.mem_cons_of_mem _ hx)
    show tokenizeAux (c :: (s ++ rest)) false cur = _
    rw [show tokenizeAux (c :: (s ++ rest)) false cur =
          tokenizeAux (s ++ rest) false (cur ++ [c]) by
        simp only [tokenizeAux, if_neg hc, if_neg hsp]]
    rw [ih (cur ++ [c]) rest hs]
    simp

theorem tokenizeAux_emit (cur rest : List Char) (h : cur ≠ []) :
    tokenizeAux (' ' :: rest) false cur = cur :: tokenizeAux rest false [] := by
  cases cur with
  | nil => exact absurd rfl h
  | cons a l => rfl

theorem tokenizeAux_quoted (t : List Char) (cur rest : List Char)
    (hq : ∀ c ∈ t, c ≠ '"') :
    tokenizeAux ('"' :: (t ++ ('"' :: rest))) false cur = tokenizeAux rest false (cur ++ t) := by
  show tokenizeAux (t ++ ('"' :: rest)) true cur = _
  rw [tokenizeAux_inQuote t cur ('"' :: rest) hq]
  rfl

theorem tokenizeAux_nil_word (cur : List Char) (h : cur ≠ []) :
    tokenizeAux [] false cur = [cur] := by
  cases cur with
  | nil => exact absurd rfl h
  | cons a l => rfl

theorem data_ne_nil {t : String} (h : t ≠ "") : t.data ≠ [] := by
  intro hd
  apply h
  cases t with
  | mk d =>
    have hd' : d = [] := hd
    subst hd'
    rfl

theorem tokenize_quoted_mid (t : String) (ht : t ≠ "") (hq : ∀ c ∈ t.data, c ≠ '"')
    (rest : List Char) :
    tokenizeAux ('"' :: (t.data ++ ('"' :: ' ' :: rest))) false []
      = t.data :: tokenizeAux rest false [] := by
  rw [tokenizeAux_quoted t.data [] (' ' :: rest) hq]
  exact tokenizeAux_emit t.data rest (data_ne_nil ht)

theorem tokenize_quoted_end (t : String) (ht : t ≠ "") (hq : ∀ c ∈ t.data, c ≠ '"') :
    tokenizeAux ('"' :: (t.data ++ ['"'])) false [] = [t.data] := by
  rw [tokenizeAux_quoted t.data [] [] hq]
  exact tokenizeAux_nil_word t.data (data_ne_nil ht)

theorem intDigitsFact : ∀ n : Nat, n < 101 →
    ((toString (Int.ofNat n)).data ≠ [] ∧
      (∀ c ∈ (toString (Int.ofNat n)).data, c ≠ '"' ∧ c ≠ ' ') ∧
      toString (Int.ofNat n) ≠ "--brightness") := by decide

theorem intDigits (v : Int) (h0 : 0 ≤ v) (h1 : v ≤ 100) :
    (toString v).data ≠ [] ∧ (∀ c ∈ (toString v).data, c ≠ '"' ∧ c ≠ ' ') ∧
      toString v ≠ "--brightness" := by
  have hn : v.toNat < 101 := by omega
  have hfact := intDigitsFact v.toNat hn
  have hv : Int.ofNat v.toNat = v := by
    rw [Int.ofNat_eq_coe]
    exact Int.toNat_of_nonneg h0
  rwa [hv] at hfact

theorem tokenize_controlLight_plain (t act : String)
    (hq : ∀ c ∈ t.data, c ≠ '"') (ht : t ≠ "")
    (ha : ∀ c ∈ act.data, c ≠ '"' ∧ c ≠ ' ') :
    tokenize (controlLightCommand ⟨t, act, none, none, none⟩)
      = ["set", "light", t, "--" ++ act] := by
  have hdata : (controlLightCommand ⟨t, act, none, none, none⟩).data
      = 's' :: 'e' :: 't' :: ' ' :: 'l' :: 'i' :: 'g' :: 'h' :: 't' :: ' ' :: '"' ::
        (t.data ++ ('"' :: ' ' :: '-' :: '-' ::act.data)) := by
    simp [controlLightCommand, brightnessPart, colorPart, temperaturePart,
      String.data_append, List.append_assoc]
  show (tokenizeAux (controlLightCommand ⟨t, act, none, none, none⟩).data false []).map String.mk = _
  rw [hdata]
  rw [show tokenizeAux ('s' :: 'e' :: 't' :: ' ' :: 'l' :: 'i' :: 'g' :: 'h' :: 't' :: ' ' :: '"' ::
        (t.data ++ ('"' :: ' ' :: '-' :: '-' ::act.data))) false []
      = ['s','e','t'] :: ['l','i','g','h','t'] ::
        tokenizeAux ('"' :: (t.data ++ ('"' :: ' ' :: '-' :: '-' ::act.data))) false [] from rfl]
  rw [tokenize_quoted_mid t ht hq ('-' :: '-' ::act.data)]
  rw [show tokenizeAux ('-' :: '-' ::act.data) false []
      = tokenizeAux (act.data ++ []) false ['-','-'] by rw [List.append_nil]; rfl]
  rw [tokenizeAux_word act.data ['-','-'] [] ha]
  rw [tokenizeAux_nil_word (['-','-'] ++ act.data) (by simp)]
  rfl

theorem tokenize_controlLight_bri (t act : String) (v : Int)
    (hq : ∀ c ∈ t.data, c ≠ '"') (ht : t ≠ "")
    (ha : ∀ c ∈ act.data, c ≠ '"' ∧ c ≠ ' ') (h0 : 0 ≤ v) (h1 : v ≤ 100) :
    tokenize (controlLightCommand ⟨t, act, some v, none, none⟩)
      = ["set", "light", t, "--" ++ act, "--brightness", toString v] := by
  obtain ⟨hd1, hd2, -⟩ := intDigits v h0 h1
  have hdata : (controlLightCommand ⟨t, act, some v, none, none⟩).data
      = 's' :: 'e' :: 't' :: ' ' :: 'l' :: 'i' :: 'g' :: 'h' :: 't' :: ' ' :: '"' ::
        (t.data ++ ('"' :: ' ' :: '-' :: '-' ::
          (act.data ++ (' ' :: '-' :: '-' :: 'b' :: 'r' :: 'i' :: 'g' :: 'h' :: 't' :: 'n' :: 'e' :: 's' :: 's' :: ' ' ::
            (toString v).data)))) := by
    simp [controlLightCommand, brightnessPart, colorPart, temperaturePart,
      String.data_append, List.append_assoc]
  show (tokenizeAux (controlLightCommand ⟨t, act, some v, none, none⟩).data false []).map String.mk = _
  rw [hdata]
  rw [show tokenizeAux ('s' :: 'e' :: 't' :: ' ' :: 'l' :: 'i' :: 'g' :: 'h' :: 't' :: ' ' :: '"' ::
        (t.data ++ ('"' :: ' ' :: '-' :: '-' ::
          (act.data ++ (' ' :: '-' :: '-' :: 'b' :: 'r' :: 'i' :: 'g' :: 'h' :: 't' :: 'n' :: 'e' :: 's' :: 's' :: ' ' ::
            (toString v).data))))) false []
      = ['s','e','t'] :: ['l','i','g','h','t'] ::
        tokenizeAux ('"' :: (t.data ++ ('"' :: ' ' :: '-' :: '-' ::
          (act.data ++ (' ' :: '-' :: '-' :: 'b' :: 'r' :: 'i' :: 'g' :: 'h' :: 't' :: 'n' :: 'e' :: 's' :: 's' :: ' ' ::
            (toString v).data))))) false [] from rfl]
  rw [tokenize_quoted_mid t ht hq ('-' :: '-' ::
        (act.data ++ (' ' :: '-' :: '-' :: 'b' :: 'r' :: 'i' :: 'g' :: 'h' :: 't' :: 'n' :: 'e' :: 's' :: 's' :: ' ' ::
          (toString v).data)))]
  rw [show tokenizeAux ('-' :: '-' ::
        (act.data ++ (' ' :: '-' :: '-' :: 'b' :: 'r' :: 'i' :: 'g' :: 'h' :: 't' :: 'n' :: 'e' :: 's' :: 's' :: ' ' ::
          (toString v).data))) false []
      = tokenizeAux (act.data ++ (' ' :: '-' :: '-' :: 'b' :: 'r' :: 'i' :: 'g' :: 'h' :: 't' :: 'n' :: 'e' :: 's' :: 's' :: ' ' ::
          (toString v).data)) false ['-','-'] from rfl]
  rw [tokenizeAux_word act.data ['-','-']
        (' ' :: '-' :: '-' :: 'b' :: 'r' :: 'i' :: 'g' :: 'h' :: 't' :: 'n' :: 'e' :: 's' :: 's' :: ' ' :: (toString v).data) ha]
  rw [tokenizeAux_emit (['-','-'] ++ act.data)
        ('-' :: '-' :: 'b' :: 'r' :: 'i' :: 'g' :: 'h' :: 't' :: 'n' :: 'e' :: 's' :: 's' :: ' ' :: (toString v).data) (by simp)]
  rw [show tokenizeAux ('-' :: '-' :: 'b' :: 'r' :: 'i' :: 'g' :: 'h' :: 't' :: 'n' :: 'e' :: 's' :: 's' :: ' ' ::
        (toString v).data) false []
      = ['-','-','b','r','i','g','h','t','n','e','s','s'] :: tokenizeAux ((toString v).data) false [] from rfl]
  rw [show tokenizeAux ((toString v).data) false []
      = tokenizeAux ((toString v).data ++ []) false [] by rw [List.append_nil]]
  rw [tokenizeAux_word (toString v).data [] [] hd2]
  rw [tokenizeAux_nil_word ([] ++ (toString v).data) (by simpa using hd1)]
  rfl

theorem tokenize_controlRoom_plain (t act : String)
    (hq : ∀ c ∈ t.data, c ≠ '"') (ht : t ≠ "")
    (ha : ∀ c ∈ act.data, c ≠ '"' ∧ c ≠ ' ') :
    tokenize (controlRoomCommand ⟨t, act, none, none, none⟩)
      = ["set", "room", t, "--" ++ act] := by
  have hdata : (controlRoomCommand ⟨t, act, none, none, none⟩).data
      = 's' :: 'e' :: 't' :: ' ' :: 'r' :: 'o' :: 'o' :: 'm' :: ' ' :: '"' ::
        (t.data ++ ('"' :: ' ' :: '-' :: '-' ::act.data)) := by
    simp [controlRoomCommand, brightnessPart, colorPart, temperaturePart,
      String.data_append, List.append_assoc]
  show (tokenizeAux (controlRoomCommand ⟨t, act, none, none, none⟩).data false []).map String.mk = _
  rw [hdata]
  rw [show tokenizeAux ('s' :: 'e' :: 't' :: ' ' :: 'r' :: 'o' :: 'o' :: 'm' :: ' ' :: '"' ::
        (t.data ++ ('"' :: ' ' :: '-' :: '-' ::act.data))) false []
      = ['s','e','t'] :: ['r','o','o','m'] ::
        tokenizeAux ('"' :: (t.data ++ ('"' :: ' ' :: '-' :: '-' ::act.data))) false [] from rfl]
  rw [tokenize_quoted_mid t ht hq ('-' :: '-' ::act.data)]
  rw [show tokenizeAux ('-' :: '-' ::act.data) false []
      = tokenizeAux (act.data ++ []) false ['-','-'] by rw [List.append_nil]; rfl]
  rw [tokenizeAux_word act.data ['-','-'] [] ha]
  rw [tokenizeAux_nil_word (['-','-'] ++ act.data) (by simp)]
  rfl

theorem tokenize_controlRoom_bri (t act : String) (v : Int)
    (hq : ∀ c ∈ t.data, c ≠ '"') (ht : t ≠ "")
    (ha : ∀ c ∈ act.data, c ≠ '"' ∧ c ≠ ' ') (h0 : 0 ≤ v) (h1 : v ≤ 100) :
    tokenize (controlRoomCommand ⟨t, act, some v, none, none⟩)
      = ["set", "room", t, "--" ++ act, "--brightness", toString v] := by
  obtain ⟨hd1, hd2, -⟩ := intDigits v h0 h1
  have hdata : (controlRoomCommand ⟨t, act, some v, none, none⟩).data
      = 's' :: 'e' :: 't' :: ' ' :: 'r' :: 'o' :: 'o' :: 'm' :: ' ' :: '"' ::
        (t.data ++ ('"' :: ' ' :: '-' :: '-' ::
          (act.data ++ (' ' :: '-' :: '-' :: 'b' :: 'r' :: 'i' :: 'g' :: 'h' :: 't' :: 'n' :: 'e' :: 's' :: 's' :: ' ' ::
            (toString v).data)))) := by
    simp [controlRoomCommand, brightnessPart, colorPart, temperaturePart,
      String.data_append, List.append_assoc]
  show (tokenizeAux (controlRoomCommand ⟨t, act, some v, none, none⟩).data false []).map String.mk = _
  rw [hdata]
  rw [show tokenizeAux ('s' :: 'e' :: 't' :: ' ' :: 'r' :: 'o' :: 'o' :: 'm' :: ' ' :: '"' ::
        (t.data ++ ('"' :: ' ' :: '-' :: '-' ::
          (act.data ++ (' ' :: '-' :: '-' :: 'b' :: 'r' :: 'i' :: 'g' :: 'h' :: 't' :: 'n' :: 'e' :: 's' :: 's' :: ' ' ::
            (toString v).data))))) false []
      = ['s','e','t'] :: ['r','o','o','m'] ::
        tokenizeAux ('"' :: (t.data ++ ('"' :: ' ' :: '-' :: '-' ::
          (act.data ++ (' ' :: '-' :: '-' :: 'b' :: 'r' :: 'i' :: 'g' :: 'h' :: 't' :: 'n' :: 'e' :: 's' :: 's' :: ' ' ::
            (toString v).data))))) false [] from rfl]
  rw [tokenize_quoted_mid t ht hq ('-' :: '-' ::
        (act.data ++ (' ' :: '-' :: '-' :: 'b' :: 'r' :: 'i' :: 'g' :: 'h' :: 't' :: 'n' :: 'e' :: 's' :: 's' :: ' ' ::
          (toString v).data)))]
  rw [show tokenizeAux ('-' :: '-' ::
        (act.data ++ (' ' :: '-' :: '-' :: 'b' :: 'r' :: 'i' :: 'g' :: 'h' :: 't' :: 'n' :: 'e' :: 's' :: 's' :: ' ' ::
          (toString v).data))) false []
      = tokenizeAux (act.data ++ (' ' :: '-' :: '-' :: 'b' :: 'r' :: 'i' :: 'g' :: 'h' :: 't' :: 'n' :: 'e' :: 's' :: 's' :: ' ' ::
          (toString v).data)) false ['-','-'] from rfl]
  rw [tokenizeAux_word act.data ['-','-']
        (' ' :: '-' :: '-' :: 'b' :: 'r' :: 'i' :: 'g' :: 'h' :: 't' :: 'n' :: 'e' :: 's' :: 's' :: ' ' :: (toString v).data) ha]
  rw [tokenizeAux_emit (['-','-'] ++ act.data)
        ('-' :: '-' :: 'b' :: 'r' :: 'i' :: 'g' :: 'h' :: 't' :: 'n' :: 'e' :: 's' :: 's' :: ' ' :: (toString v).data) (by simp)]
  rw [show tokenizeAux ('-' :: '-' :: 'b' :: 'r' :: 'i' :: 'g' :: 'h' :: 't' :: 'n' :: 'e' :: 's' :: 's' :: ' ' ::
        (toString v).data) false []
      = ['-','-','b','r','i','g','h','t','n','e','s','s'] :: tokenizeAux ((toString v).data) false [] from rfl]
  rw [show tokenizeAux ((toString v).data) false []
      = tokenizeAux ((toString v).data ++ []) false [] by rw [List.append_nil]]
  rw [tokenizeAux_word (toString v).data [] [] hd2]
  rw [tokenizeAux_nil_word ([] ++ (toString v).data) (by simpa using hd1)]
  rfl

theorem tokenize_scene_room (n r : String)
    (hqn : ∀ c ∈ n.data, c ≠ '"') (hn : n ≠ "")
    (hqr : ∀ c ∈ r.data, c ≠ '"') (hr : r ≠ "") :
    tokenize (activateSceneCommand ⟨n, some r, none⟩)
      = ["set", "scene", n, "--room", r] := by
  have hdata : (activateSceneCommand ⟨n, some r, none⟩).data
      = 's' :: 'e' :: 't' :: ' ' :: 's' :: 'c' :: 'e' :: 'n' :: 'e' :: ' ' :: '"' ::
        (n.data ++ ('"' :: ' ' :: '-' :: '-' :: 'r' :: 'o' :: 'o' :: 'm' :: ' ' :: '"' ::
          (r.data ++ ['"']))) := by
    simp [activateSceneCommand, sceneRoomPart, sceneModePart, if_neg hr,
      String.data_append, List.append_assoc]
  show (tokenizeAux (activateSceneCommand ⟨n, some r, none⟩).data false []).map String.mk = _
  rw [hdata]
  rw [show tokenizeAux ('s' :: 'e' :: 't' :: ' ' :: 's' :: 'c' :: 'e' :: 'n' :: 'e' :: ' ' :: '"' ::
        (n.data ++ ('"' :: ' ' :: '-' :: '-' :: 'r' :: 'o' :: 'o' :: 'm' :: ' ' :: '"' ::
          (r.data ++ ['"'])))) false []
      = ['s','e','t'] :: ['s','c','e','n','e'] ::
        tokenizeAux ('"' :: (n.data ++ ('"' :: ' ' :: '-' :: '-' :: 'r' :: 'o' :: 'o' :: 'm' :: ' ' :: '"' ::
          (r.data ++ ['"'])))) false [] from rfl]
  rw [tokenize_quoted_mid n hn hqn ('-' :: '-' :: 'r' :: 'o' :: 'o' :: 'm' :: ' ' :: '"' :: (r.data ++ ['"']))]
  rw [show tokenizeAux ('-' :: '-' :: 'r' :: 'o' :: 'o' :: 'm' :: ' ' :: '"' :: (r.data ++ ['"'])) false []
      = ['-','-','r','o','o','m'] :: tokenizeAux ('"' :: (r.data ++ ['"'])) false [] from rfl]
  rw [tokenize_quoted_end r hr hqr]
  rfl

theorem optToList_eq_nil (o : Option Issue) : o.toList = [] ↔ o = none := by
  cases o <;> simp

theorem jsonString_iff (p : String) (v : Option Value) :
    jsonString v = true ↔ checkRequiredString p v = none := by
  cases v with
  | none => simp [jsonString, checkRequiredString]
  | some w => cases w <;> simp [jsonString, checkRequiredString]

theorem jsonOptString_iff (p : String) (v : Option Value) :
    jsonOptString v = true ↔ checkOptionalString p v = none := by
  cases v with
  | none => simp [jsonOptString, checkOptionalString]
  | some w => cases w <;> simp [jsonOptString, checkOptionalString]

theorem jsonEnum_iff (vals : List String) (p : String) (v : Option Value) :
    jsonEnum vals v = true ↔ checkRequiredEnum vals p v = none := by
  cases v with
  | none => simp [jsonEnum, checkRequiredEnum]
  | some w =>
    cases w with
    | num n => simp [jsonEnum, checkRequiredEnum]
    | str s =>
      by_cases hs : s ∈ vals <;> simp [jsonEnum, checkRequiredEnum, hs]

theorem jsonOptEnum_iff (vals : List String) (p : String) (v : Option Value) :
    jsonOptEnum vals v = true ↔ checkOptionalEnum vals p v = none := by
  cases v with
  | none => simp [jsonOptEnum, checkOptionalEnum]
  | some w =>
    cases w with
    | num n => simp [jsonOptEnum, checkOptionalEnum]
    | str s =>
      by_cases hs : s ∈ vals <;> simp [jsonOptEnum, checkOptionalEnum, hs]

theorem jsonOptNumRange_iff (lo hi : Int) (p : String) (v : Option Value) :
    jsonOptNumRange lo hi v = true ↔ checkOptionalNumRange lo hi p v = none := by
  cases v with
  | none => simp [jsonOptNumRange, checkOptionalNumRange]
  | some w =>
    cases w with
    | str s => simp [jsonOptNumRange, checkOptionalNumRange]
    | num n =>
      by_cases h1 : n < lo
      · simp [jsonOptNumRange, checkOptionalNumRange, h1]
        try omega
      · by_cases h2 : hi < n
        · simp [jsonOptNumRange, checkOptionalNumRange, h1, h2]
          try omega
        · simp [jsonOptNumRange, checkOptionalNumRange, h1, h2]
          try omega

theorem jsonOkControlLight_iff (a : RawArgs) :
    jsonOkControlLight a = true ↔ lightIssues a = [] := by
  simp [jsonOkControlLight, lightIssues, List.append_eq_nil, optToList_eq_nil,
    jsonString_iff "target" a.target, jsonEnum_iff ["on", "off"] "action" a.action,
    jsonOptNumRange_iff 0 100 "brightness" a.brightness,
    jsonOptString_iff "color" a.color,
    jsonOptNumRange_iff 153 500 "temperature" a.temperature]
  tauto

theorem jsonOkControlRoom_iff (a : RawArgs) :
    jsonOkControlRoom a = true ↔ roomIssues a = [] := by
  simp [jsonOkControlRoom, roomIssues, List.append_eq_nil, optToList_eq_nil,
    jsonString_iff "target" a.target, jsonEnum_iff ["on", "off"] "action" a.action,
    jsonOptNumRange_iff 0 100 "brightness" a.brightness,
    jsonOptString_iff "color" a.color,
    jsonOptNumRange_iff 153 500 "temperature" a.temperature]
  tauto

theorem jsonOkActivateScene_iff (a : RawArgs) :
    jsonOkActivateScene a = true ↔ sceneIssues a = [] := by
  simp [jsonOkActivateScene, sceneIssues, List.append_eq_nil, optToList_eq_nil,
    jsonString_iff "name" a.name, jsonOptString_iff "room" a.room,
    jsonOptEnum_iff ["active", "dynamic", "static"] "mode" a.mode]
  tauto

theorem executeHue_ok (h cmd : String) (o : ProcOutcome)
    (he : o.exitCode = 0) (hs : o.stderr = "") :
    executeHueCommand h cmd o = .ok o.stdout := by
  simp [executeHueCommand, execAsyncResult, he, hs]

theorem executeHue_fail (h cmd : String) (o : ProcOutcome)
    (hfail : o.exitCode ≠ 0 ∨ o.stderr ≠ "") :
    ∃ m, executeHueCommand h cmd o = .error m ∧ containsStr m o.stderr := by
  by_cases he : o.exitCode = 0
  · have hs : o.stderr ≠ "" := by
      rcases hfail with h1 | h2
      · exact absurd he h1
      · exact h2
    refine ⟨o.stderr, ?_, containsStr_self _⟩
    simp [executeHueCommand, execAsyncResult, he, hs]
  · refine ⟨"Command failed: " ++ buildDockerCommand h cmd ++ "\n" ++ o.stderr, ?_, containsStr_right _ _⟩
    simp [executeHueCommand, execAsyncResult, he]

theorem respond_getLights (homeDir : String) (a : RawArgs) (o : ProcOutcome) :
    respond homeDir "get-lights" a o
      = executeHueCommand homeDir (getLightsCommand a.lightId a.room) o := rfl

theorem respond_getRooms (homeDir : String) (a : RawArgs) (o : ProcOutcome) :
    respond homeDir "get-rooms" a o
      = executeHueCommand homeDir (getRoomsCommand a.roomId) o := rfl

theorem respond_getScenes (homeDir : String) (a : RawArgs) (o : ProcOutcome) :
    respond homeDir "get-scenes" a o
      = executeHueCommand homeDir (getScenesCommand a.room) o := rfl

theorem respond_controlLight (homeDir : String) (a : RawArgs) (o : ProcOutcome) :
    respond homeDir "control-light" a o
      = match lightParse a with
        | .error is => .error (invalidArgumentsMessage is)
        | .ok p =>
          match executeHueCommand homeDir (controlLightCommand p) o with
          | .error e => .error e
          | .ok _ => .ok ("Successfully set light \"" ++ p.target ++ "\" to " ++ p.action) := rfl

theorem respond_controlRoom (homeDir : String) (a : RawArgs) (o : ProcOutcome) :
    respond homeDir "control-room" a o
      = match roomParse a with
        | .error is => .error (invalidArgumentsMessage is)
        | .ok p =>
          match executeHueCommand homeDir (controlRoomCommand p) o with
          | .error e => .error e
          | .ok _ => .ok ("Successfully set room \"" ++ p.target ++ "\" to " ++ p.action) := rfl

theorem respond_activateScene (homeDir : String) (a : RawArgs) (o : ProcOutcome) :
    respond homeDir "activate-scene" a o
      = match sceneParse a with
        | .error is => .error (invalidArgumentsMessage is)
        | .ok p =>
          match executeHueCommand homeDir (activateSceneCommand p) o with
          | .error e => .error e
          | .ok _ => .ok ("Successfully activated scene \"" ++ p.name ++ "\"") := rfl

theorem builtCommand_getLights (a : RawArgs) :
    builtCommand "get-lights" a = some (getLightsCommand a.lightId a.room) := rfl

theorem builtCommand_getRooms (a : RawArgs) :
    builtCommand "get-rooms" a = some (getRoomsCommand a.roomId) := rfl

theorem builtCommand_getScenes (a : RawArgs) :
    builtCommand "get-scenes" a = some (getScenesCommand a.room) := rfl

theorem builtCommand_controlLight (a : RawArgs) :
    builtCommand "control-light" a
      = match lightParse a with
        | .ok p => some (controlLightCommand p)
        | .error _ => none := rfl

theorem builtCommand_controlRoom (a : RawArgs) :
    builtCommand "control-room" a
      = match roomParse a with
        | .ok p => some (controlRoomCommand p)
        | .error _ => none := rfl

theorem builtCommand_activateScene (a : RawArgs) :
    builtCommand "activate-scene" a
      = match sceneParse a with
        | .ok p => some (activateSceneCommand p)
        | .error _ => none := rfl

/-!  Claim theorems. -/

/-- C1, counterexample: the `control-light` handler interpolates the
validated color without quotes, so the color `"warm white"` is split
into two separate arguments by shell word splitting instead of being
recovered as a single argument; the claim that every free-form value
(color included) is individually quoted is false on this code. -/
theorem c1_color_counterexample :
    controlLightCommand ⟨"Desk Lamp", "on", none, some "warm white", none⟩
      = "set light \"Desk Lamp\" --on --color warm white" ∧
    tokenize (controlLightCommand ⟨"Desk Lamp", "on", none, some "warm white", none⟩)
      = ["set", "light", "Desk Lamp", "--on", "--color", "warm", "white"] ∧
    "warm white" ∉ tokenize (controlLightCommand ⟨"Desk Lamp", "on", none, some "warm white", none⟩) := by
  refine ⟨rfl, by decide, by decide⟩

/-- C1, amended: the target of `control-light` / `control-room` and the
name and room of `activate-scene` are individually wrapped in double
quotes, so any such value without a double-quote character (spaces and
other metacharacters included) round-trips through shell word
splitting as a single argument; color (and mode) are interpolated
without quotes and do not round-trip when they contain a space. -/
theorem c1_quoting_amended (t n r act : String)
    (hqt : ∀ c ∈ t.data, c ≠ '"') (ht : t ≠ "")
    (hqn : ∀ c ∈ n.data, c ≠ '"') (hn : n ≠ "")
    (hqr : ∀ c ∈ r.data, c ≠ '"') (hr : r ≠ "")
    (hact : act = "on" ∨ act = "off") :
    tokenize (controlLightCommand ⟨t, act, none, none, none⟩) = ["set", "light", t, "--" ++ act] ∧
    tokenize (controlRoomCommand ⟨t, act, none, none, none⟩) = ["set", "room", t, "--" ++ act] ∧
    tokenize (activateSceneCommand ⟨n, some r, none⟩) = ["set", "scene", n, "--room", r] := by
  have ha : ∀ c ∈ act.data, c ≠ '"' ∧ c ≠ ' ' := by
    obtain rfl | rfl := hact <;> decide
  exact ⟨tokenize_controlLight_plain t act hqt ht ha,
         tokenize_controlRoom_plain t act hqt ht ha,
         tokenize_scene_room n r hqn hn hqr hr⟩

/-- C1, witness for the amended theorem at concrete inputs with
spaces. -/
theorem c1_quoting_witness :
    ("Desk Lamp" : String) ≠ "" ∧
    tokenize (controlLightCommand ⟨"Desk Lamp", "on", none, none, none⟩)
      = ["set", "light", "Desk Lamp", "--on"] ∧
    tokenize (activateSceneCommand ⟨"Relaxing", some "Living Room", none⟩)
      = ["set", "scene", "Relaxing", "--room", "Living Room"] := by
  have h := c1_quoting_amended "Desk Lamp" "Relaxing" "Living Room" "on"
    (by decide) (by decide) (by decide) (by decide) (by decide) (by decide) (Or.inl rfl)
  exact ⟨by decide, h.1, h.2.2⟩

/-- C5, counterexample: `z.string()` accepts the empty string, so a
`control-light` call with `target = ""` (and a scene color `""`)
passes validation and a command is built, contradicting the claim that
empty strings are rejected with InvalidArguments. -/
theorem c5_empty_counterexample :
    lightParse ⟨some (.str ""), some (.str "on"), none, none, none, none, none, none, none, none⟩
      = .ok ⟨"", "on", none, none, none⟩ ∧
    builtCommand "control-light"
        ⟨some (.str ""), some (.str "on"), none, none, none, none, none, none, none, none⟩
      = some "set light \"\" --on" ∧
    lightParse ⟨some (.str "Desk Lamp"), some (.str "on"), none, some (.str ""), none, none, none, none, none, none⟩
      = .ok ⟨"Desk Lamp", "on", none, some "", none⟩ := by
  exact ⟨rfl, rfl, rfl⟩

/-- C5, amended: validation requires target/name to be present strings
and color to be a string when present, but does not require
non-emptiness: every string value, the empty string included, passes
the field checks, and with an empty target a command is still built. -/
theorem c5_nonempty_amended :
    (∀ s : String, checkRequiredString "target" (some (.str s)) = none) ∧
    (∀ s : String, checkRequiredString "name" (some (.str s)) = none) ∧
    (∀ s : String, checkOptionalString "color" (some (.str s)) = none) ∧
    lightParse ⟨some (.str ""), some (.str "on"), none, none, none, none, none, none, none, none⟩
      = .ok ⟨"", "on", none, none, none⟩ ∧
    builtCommand "control-light"
        ⟨some (.str ""), some (.str "on"), none, none, none, none, none, none, none, none⟩
      = some "set light \"\" --on" := by
  exact ⟨fun _ => rfl, fun _ => rfl, fun _ => rfl, rfl, rfl⟩

/-- C9: `get-lights` with no arguments builds `get light --json`,
wrapped in the fixed container-run prefix, and with
`lightId = "Desk Lamp"`, `room = "Office"` builds
`get light "Desk Lamp" --room "Office" --json` with identifier,
`--room` flag and trailing `--json` in that order. -/
theorem c9_get_lights_commands (homeDir : String) :
    getLightsCommand none none = "get light --json" ∧
    buildDockerCommand homeDir (getLightsCommand none none)
      = "docker run -v \"" ++ homeDir ++ "/.openhue:/.openhue\" --rm openhue/cli get light --json" ∧
    getLightsCommand (some (.str "Desk Lamp")) (some (.str "Office"))
      = "get light \"Desk Lamp\" --room \"Office\" --json" := by
  refine ⟨rfl, ?_, rfl⟩
  apply String.ext
  simp [buildDockerCommand, configPath, getLightsCommand, truthy,
    String.data_append, List.append_assoc]

/-- C10: an empty-string color is dropped by the handlers' truthiness
check (`if (params.color)`), so it yields the same command as an
absent color, while a defined brightness is always rendered — the
brightness flag appears for every defined value, `0` included. -/
theorem c10_truthiness_flags :
    (∀ (t act : String) (b tp : Option Int),
      controlLightCommand ⟨t, act, b, some "", tp⟩ = controlLightCommand ⟨t, act, b, none, tp⟩ ∧
      controlRoomCommand ⟨t, act, b, some "", tp⟩ = controlRoomCommand ⟨t, act, b, none, tp⟩) ∧
    (∀ (t act : String) (c : Option String) (tp : Option Int) (v : Int),
      controlLightCommand ⟨t, act, some v, c, tp⟩
        = "set light \"" ++ t ++ "\" --" ++ act ++ (" --brightness " ++ toString v)
            ++ colorPart c ++ temperaturePart tp ∧
      controlRoomCommand ⟨t, act, some v, c, tp⟩
        = "set room \"" ++ t ++ "\" --" ++ act ++ (" --brightness " ++ toString v)
            ++ colorPart c ++ temperaturePart tp) := by
  exact ⟨fun t act b tp => ⟨rfl, rfl⟩, fun t act c tp v => ⟨rfl, rfl⟩⟩

/-- C2, counterexample: the three read tools perform no validation at
all — a `get-lights` call whose `lightId` is the number `42` violates
the advertised schema (`type: "string"`), yet the handler builds and
runs `get light "42" --json` instead of failing with
InvalidArguments. -/
theorem c2_get_tools_counterexample :
    jsonOkGetLights ⟨none, none, none, none, none, some (.num 42), none, none, none, none⟩ = false ∧
    builtCommand "get-lights" ⟨none, none, none, none, none, some (.num 42), none, none, none, none⟩
      = some "get light \"42\" --json" ∧
    respond "/home/user" "get-lights"
        ⟨none, none, none, none, none, some (.num 42), none, none, none, none⟩ ⟨0, "{}", ""⟩
      = .ok "{}" := by
  exact ⟨rfl, rfl, rfl⟩

/-- C2, amended: for the three write tools the advertised schema
matches validation exactly — a bag satisfies the discovery schema iff
zod collects no issues, and on violation the call fails with
InvalidArguments before any command is built; the three read tools
validate nothing and always build a command, even for bags violating
their advertised schemas. -/
theorem c2_schema_match_amended (a : RawArgs) :
    (jsonOkControlLight a = true ↔ lightIssues a = []) ∧
    (jsonOkControlRoom a = true ↔ roomIssues a = []) ∧
    (jsonOkActivateScene a = true ↔ sceneIssues a = []) ∧
    (jsonOkControlLight a = false →
      builtCommand "control-light" a = none ∧
      ∀ h o, respond h "control-light" a o = .error (invalidArgumentsMessage (lightIssues a))) ∧
    (jsonOkControlRoom a = false →
      builtCommand "control-room" a = none ∧
      ∀ h o, respond h "control-room" a o = .error (invalidArgumentsMessage (roomIssues a))) ∧
    (jsonOkActivateScene a = false →
      builtCommand "activate-scene" a = none ∧
      ∀ h o, respond h "activate-scene" a o = .error (invalidArgumentsMessage (sceneIssues a))) ∧
    (builtCommand "get-lights" a).isSome = true ∧
    (builtCommand "get-rooms" a).isSome = true ∧
    (builtCommand "get-scenes" a).isSome = true := by
  refine ⟨jsonOkControlLight_iff a, jsonOkControlRoom_iff a, jsonOkActivateScene_iff a,
    ?_, ?_, ?_, rfl, rfl, rfl⟩
  · intro hfalse
    have hne : lightIssues a ≠ [] := by
      intro hnil
      rw [(jsonOkControlLight_iff a).mpr hnil] at hfalse
      simp at hfalse
    refine ⟨?_, fun h o => ?_⟩
    · rw [builtCommand_controlLight]
      simp [lightParse, hne]
    · rw [respond_controlLight]
      simp [lightParse, hne]
  · intro hfalse
    have hne : roomIssues a ≠ [] := by
      intro hnil
      rw [(jsonOkControlRoom_iff a).mpr hnil] at hfalse
      simp at hfalse
    refine ⟨?_, fun h o => ?_⟩
    · rw [builtCommand_controlRoom]
      simp [roomParse, hne]
    · rw [respond_controlRoom]
      simp [roomParse, hne]
  · intro hfalse
    have hne : sceneIssues a ≠ [] := by
      intro hnil
      rw [(jsonOkActivateScene_iff a).mpr hnil] at hfalse
      simp at hfalse
    refine ⟨?_, fun h o => ?_⟩
    · rw [builtCommand_activateScene]
      simp [sceneParse, hne]
    · rw [respond_activateScene]
      simp [sceneParse, hne]

/-- C2, witness for the amended theorem: a bag with both required
fields missing fails the advertised `control-light` schema and no
command is built. -/
theorem c2_schema_match_witness :
    jsonOkControlLight ⟨none, none, none, none, none, none, none, none, none, none⟩ = false ∧
    builtCommand "control-light" ⟨none, none, none, none, none, none, none, none, none, none⟩ = none := by
  have h := c2_schema_match_amended ⟨none, none, none, none, none, none, none, none, none, none⟩
  exact ⟨by decide, (h.2.2.2.1 (by decide)).1⟩

/-- C3, counterexample: an `activate-scene` call with a mode builds the
`--action` flag but its success confirmation names only the scene,
not the mode — the message for mode `"dynamic"` does not contain
`"dynamic"`. -/
theorem c3_mode_counterexample :
    builtCommand "activate-scene"
        ⟨none, none, none, none, none, none, none, none, some (.str "Relaxing"), some (.str "dynamic")⟩
      = some "set scene \"Relaxing\" --action dynamic" ∧
    respond "/home/user" "activate-scene"
        ⟨none, none, none, none, none, none, none, none, some (.str "Relaxing"), some (.str "dynamic")⟩
        ⟨0, "", ""⟩
      = .ok "Successfully activated scene \"Relaxing\"" ∧
    ¬ containsStr "Successfully activated scene \"Relaxing\"" "dynamic" := by
  refine ⟨rfl, rfl, ?_⟩
  rw [containsStr_iff]
  decide

/-- C3, amended: on successful execution every write tool discards the
captured output and returns a fixed confirmation; `control-light` and
`control-room` name the target and the action, while `activate-scene`
names only the scene name (not the mode); the Desk Lamp example builds
`set light "Desk Lamp" --on --brightness 50` and its confirmation
contains `"Desk Lamp"` and `"on"`. -/
theorem c3_confirmations_amended (homeDir : String) (a : RawArgs) (o : ProcOutcome)
    (he : o.exitCode = 0) (hs : o.stderr = "") :
    (∀ p, lightParse a = .ok p →
      respond homeDir "control-light" a o
        = .ok ("Successfully set light \"" ++ p.target ++ "\" to " ++ p.action)) ∧
    (∀ p, roomParse a = .ok p →
      respond homeDir "control-room" a o
        = .ok ("Successfully set room \"" ++ p.target ++ "\" to " ++ p.action)) ∧
    (∀ p, sceneParse a = .ok p →
      respond homeDir "activate-scene" a o
        = .ok ("Successfully activated scene \"" ++ p.name ++ "\"")) ∧
    builtCommand "control-light"
        ⟨some (.str "Desk Lamp"), some (.str "on"), some (.num 50), none, none, none, none, none, none, none⟩
      = some "set light \"Desk Lamp\" --on --brightness 50" ∧
    containsStr "Successfully set light \"Desk Lamp\" to on" "Desk Lamp" ∧
    containsStr "Successfully set light \"Desk Lamp\" to on" "on" := by
  have hexec : ∀ cmd, executeHueCommand homeDir cmd o = .ok o.stdout :=
    fun cmd => executeHue_ok homeDir cmd o he hs
  refine ⟨?_, ?_, ?_, rfl, ?_, ?_⟩
  · intro p hp
    rw [respond_controlLight]
    simp [hp, hexec]
  · intro p hp
    rw [respond_controlRoom]
    simp [hp, hexec]
  · intro p hp
    rw [respond_activateScene]
    simp [hp, hexec]
  · rw [containsStr_iff]; decide
  · rw [containsStr_iff]; decide

/-- C3, witness for the amended theorem at a concrete successful
call. -/
theorem c3_confirmations_witness :
    respond "/home/user" "control-light"
        ⟨some (.str "Desk Lamp"), some (.str "on"), some (.num 50), none, none, none, none, none, none, none⟩
        ⟨0, "", ""⟩
      = .ok "Successfully set light \"Desk Lamp\" to on" := by
  have h := c3_confirmations_amended "/home/user"
    ⟨some (.str "Desk Lamp"), some (.str "on"), some (.num 50), none, none, none, none, none, none, none⟩
    ⟨0, "", ""⟩ rfl rfl
  exact h.1 ⟨"Desk Lamp", "on", some 50, none, none⟩ rfl

/-- C4: whenever a call-tool request has built a command and the
subprocess exits non-zero or writes to standard error, the dispatcher
surfaces a single failure whose message contains the captured standard
error text verbatim. -/
theorem c4_stderr_surfaced (homeDir tool : String) (a : RawArgs) (o : ProcOutcome) (cmd : String)
    (hbuilt : builtCommand tool a = some cmd)
    (hfail : o.exitCode ≠ 0 ∨ o.stderr ≠ "") :
    ∃ m, respond homeDir tool a o = .error m ∧ containsStr m o.stderr := by
  by_cases h1 : tool = "get-lights"
  · subst h1
    rw [respond_getLights]
    exact executeHue_fail homeDir _ o hfail
  by_cases h2 : tool = "control-light"
  · subst h2
    rw [respond_controlLight]
    cases hp : lightParse a with
    | error is =>
      rw [builtCommand_controlLight] at hbuilt
      simp [hp] at hbuilt
    | ok p =>
      obtain ⟨m, hm, hcs⟩ := executeHue_fail homeDir (controlLightCommand p) o hfail
      refine ⟨m, ?_, hcs⟩
      simp [hp, hm]
  by_cases h3 : tool = "get-rooms"
  · subst h3
    rw [respond_getRooms]
    exact executeHue_fail homeDir _ o hfail
  by_cases h4 : tool = "control-room"
  · subst h4
    rw [respond_controlRoom]
    cases hp : roomParse a with
    | error is =>
      rw [builtCommand_controlRoom] at hbuilt
      simp [hp] at hbuilt
    | ok p =>
      obtain ⟨m, hm, hcs⟩ := executeHue_fail homeDir (controlRoomCommand p) o hfail
      refine ⟨m, ?_, hcs⟩
      simp [hp, hm]
  by_cases h5 : tool = "get-scenes"
  · subst h5
    rw [respond_getScenes]
    exact executeHue_fail homeDir _ o hfail
  by_cases h6 : tool = "activate-scene"
  · subst h6
    rw [respond_activateScene]
    cases hp : sceneParse a with
    | error is =>
      rw [builtCommand_activateScene] at hbuilt
      simp [hp] at hbuilt
    | ok p =>
      obtain ⟨m, hm, hcs⟩ := executeHue_fail homeDir (activateSceneCommand p) o hfail
      refine ⟨m, ?_, hcs⟩
      simp [hp, hm]
  exact absurd hbuilt (by simp [builtCommand, h1, h2, h3, h4, h5, h6])

/-- C4, witness: a non-zero exit with stderr `"bridge unreachable"`
yields a dispatcher failure whose message contains that text. -/
theorem c4_stderr_witness :
    builtCommand "control-light"
        ⟨some (.str "Desk Lamp"), some (.str "on"), none, none, none, none, none, none, none, none⟩
      = some "set light \"Desk Lamp\" --on" ∧
    ∃ m, respond "/home/user" "control-light"
        ⟨some (.str "Desk Lamp"), some (.str "on"), none, none, none, none, none, none, none, none⟩
        ⟨1, "", "bridge unreachable"⟩
      = .error m ∧ containsStr m "bridge unreachable" := by
  refine ⟨by decide, ?_⟩
  exact c4_stderr_surfaced "/home/user" "control-light"
    ⟨some (.str "Desk Lamp"), some (.str "on"), none, none, none, none, none, none, none, none⟩
    ⟨1, "", "bridge unreachable"⟩ "set light \"Desk Lamp\" --on" (by decide) (Or.inl (by decide))

/-- C6: when validation of a write tool finds violations, the single
InvalidArguments error message concatenates every issue, and for each
offending field both its path and its human-readable reason occur in
the reported message. -/
theorem c6_all_violations (homeDir : String) (a : RawArgs) (o : ProcOutcome) :
    (lightIssues a ≠ [] →
      respond homeDir "control-light" a o = .error (invalidArgumentsMessage (lightIssues a)) ∧
      ∀ i ∈ lightIssues a,
        containsStr (invalidArgumentsMessage (lightIssues a)) i.path ∧
        containsStr (invalidArgumentsMessage (lightIssues a)) i.msg) ∧
    (roomIssues a ≠ [] →
      respond homeDir "control-room" a o = .error (invalidArgumentsMessage (roomIssues a)) ∧
      ∀ i ∈ roomIssues a,
        containsStr (invalidArgumentsMessage (roomIssues a)) i.path ∧
        containsStr (invalidArgumentsMessage (roomIssues a)) i.msg) ∧
    (sceneIssues a ≠ [] →
      respond homeDir "activate-scene" a o = .error (invalidArgumentsMessage (sceneIssues a)) ∧
      ∀ i ∈ sceneIssues a,
        containsStr (invalidArgumentsMessage (sceneIssues a)) i.path ∧
        containsStr (invalidArgumentsMessage (sceneIssues a)) i.msg) := by
  refine ⟨fun hne => ⟨?_, fun i hi => ?_⟩, fun hne => ⟨?_, fun i hi => ?_⟩,
    fun hne => ⟨?_, fun i hi => ?_⟩⟩
  · rw [respond_controlLight]
    simp [lightParse, hne]
  · have h2 : containsStr (invalidArgumentsMessage (lightIssues a)) (issueText i) := by
      show containsStr ("Invalid arguments: " ++ joinIssues (lightIssues a)) (issueText i)
      exact containsStr_append_left _ (mem_joinIssues (lightIssues a) i hi)
    exact ⟨containsStr_trans h2 (issueText_path i), containsStr_trans h2 (issueText_msg i)⟩
  · rw [respond_controlRoom]
    simp [roomParse, hne]
  · have h2 : containsStr (invalidArgumentsMessage (roomIssues a)) (issueText i) := by
      show containsStr ("Invalid arguments: " ++ joinIssues (roomIssues a)) (issueText i)
      exact containsStr_append_left _ (mem_joinIssues (roomIssues a) i hi)
    exact ⟨containsStr_trans h2 (issueText_path i), containsStr_trans h2 (issueText_msg i)⟩
  · rw [respond_activateScene]
    simp [sceneParse, hne]
  · have h2 : containsStr (invalidArgumentsMessage (sceneIssues a)) (issueText i) := by
      show containsStr ("Invalid arguments: " ++ joinIssues (sceneIssues a)) (issueText i)
      exact containsStr_append_left _ (mem_joinIssues (sceneIssues a) i hi)
    exact ⟨containsStr_trans h2 (issueText_path i), containsStr_trans h2 (issueText_msg i)⟩

/-- C6, witness: a bag with a numeric target and an unknown action
produces two issues and one aggregated error message. -/
theorem c6_all_violations_witness :
    lightIssues ⟨some (.num 5), some (.str "blah"), none, none, none, none, none, none, none, none⟩ ≠ [] ∧
    respond "/home/user" "control-light"
        ⟨some (.num 5), some (.str "blah"), none, none, none, none, none, none, none, none⟩
        ⟨0, "", ""⟩
      = .error (invalidArgumentsMessage
          (lightIssues ⟨some (.num 5), some (.str "blah"), none, none, none, none, none, none, none, none⟩)) := by
  refine ⟨by decide, ?_⟩
  exact ((c6_all_violations "/home/user"
    ⟨some (.num 5), some (.str "blah"), none, none, none, none, none, none, none, none⟩
    ⟨0, "", ""⟩).1 (by decide)).1

/-- C7: a temperature strictly below 153 or strictly above 500 makes
validation of `control-light` and `control-room` fail with an issue
naming the `temperature` field and no command is built, while the
boundary values 153 and 500 both pass validation. -/
theorem c7_temperature_range :
    (∀ (a : RawArgs) (tv : Int), a.temperature = some (.num tv) → tv < 153 ∨ 500 < tv →
      (∃ i ∈ lightIssues a, i.path = "temperature") ∧
      (∃ i ∈ roomIssues a, i.path = "temperature") ∧
      builtCommand "control-light" a = none ∧ builtCommand "control-room" a = none) ∧
    lightIssues ⟨some (.str "Desk Lamp"), some (.str "on"), none, none, some (.num 153), none, none, none, none, none⟩ = [] ∧
    lightIssues ⟨some (.str "Desk Lamp"), some (.str "on"), none, none, some (.num 500), none, none, none, none, none⟩ = [] ∧
    roomIssues ⟨some (.str "Office"), some (.str "off"), none, none, some (.num 153), none, none, none, none, none⟩ = [] ∧
    roomIssues ⟨some (.str "Office"), some (.str "off"), none, none, some (.num 500), none, none, none, none, none⟩ = [] := by
  refine ⟨?_, by decide, by decide, by decide, by decide⟩
  intro a tv htv hrange
  have hmem : ∃ i ∈ (checkOptionalNumRange 153 500 "temperature" a.temperature).toList,
      i.path = "temperature" := by
    rw [htv]
    rcases hrange with h | h
    · exact ⟨⟨"temperature", "Number must be greater than or equal to " ++ toString (153 : Int)⟩,
        by simp [checkOptionalNumRange, h], rfl⟩
    · have h' : ¬ tv < 153 := by omega
      exact ⟨⟨"temperature", "Number must be less than or equal to " ++ toString (500 : Int)⟩,
        by simp [checkOptionalNumRange, h', h], rfl⟩
  obtain ⟨i, hiMem, hiPath⟩ := hmem
  have hLight : i ∈ lightIssues a := by
    simp only [lightIssues]
    exact List.mem_append.mpr (Or.inr hiMem)
  have hRoom : i ∈ roomIssues a := by
    simp only [roomIssues]
    exact List.mem_append.mpr (Or.inr hiMem)
  have hneL : lightIssues a ≠ [] := List.ne_nil_of_mem hLight
  have hneR : roomIssues a ≠ [] := List.ne_nil_of_mem hRoom
  refine ⟨⟨i, hLight, hiPath⟩, ⟨i, hRoom, hiPath⟩, ?_, ?_⟩
  · rw [builtCommand_controlLight]
    simp [lightParse, hneL]
  · rw [builtCommand_controlRoom]
    simp [roomParse, hneR]

/-- C7, witness: temperature 600 produces a temperature-named issue
and no command. -/
theorem c7_temperature_witness :
    (∃ i ∈ lightIssues ⟨some (.str "Desk Lamp"), some (.str "on"), none, none, some (.num 600), none, none, none, none, none⟩,
      i.path = "temperature") ∧
    builtCommand "control-light"
        ⟨some (.str "Desk Lamp"), some (.str "on"), none, none, some (.num 600), none, none, none, none, none⟩
      = none := by
  have h := c7_temperature_range.1
    ⟨some (.str "Desk Lamp"), some (.str "on"), none, none, some (.num 600), none, none, none, none, none⟩
    600 rfl (Or.inr (by decide))
  exact ⟨h.1, h.2.2.1⟩

/-- C8: for every brightness value in the inclusive range 0..100, the
built `control-light` / `control-room` command carries exactly one
`--brightness` token immediately followed by the rendered value, and
no brightness token at all when brightness is omitted. -/
theorem c8_brightness_flag (t act : String) (v : Int)
    (hq : ∀ c ∈ t.data, c ≠ '"') (ht : t ≠ "") (htb : t ≠ "--brightness")
    (hact : act = "on" ∨ act = "off") (h0 : 0 ≤ v) (h1 : v ≤ 100) :
    tokenize (controlLightCommand ⟨t, act, some v, none, none⟩)
      = ["set", "light", t, "--" ++ act, "--brightness", toString v] ∧
    countTok "--brightness" (tokenize (controlLightCommand ⟨t, act, some v, none, none⟩)) = 1 ∧
    tokenize (controlLightCommand ⟨t, act, none, none, none⟩) = ["set", "light", t, "--" ++ act] ∧
    countTok "--brightness" (tokenize (controlLightCommand ⟨t, act, none, none, none⟩)) = 0 ∧
    tokenize (controlRoomCommand ⟨t, act, some v, none, none⟩)
      = ["set", "room", t, "--" ++ act, "--brightness", toString v] ∧
    countTok "--brightness" (tokenize (controlRoomCommand ⟨t, act, some v, none, none⟩)) = 1 ∧
    tokenize (controlRoomCommand ⟨t, act, none, none, none⟩) = ["set", "room", t, "--" ++ act] ∧
    countTok "--brightness" (tokenize (controlRoomCommand ⟨t, act, none, none, none⟩)) = 0 := by
  have ha : ∀ c ∈ act.data, c ≠ '"' ∧ c ≠ ' ' := by
    obtain rfl | rfl := hact <;> decide
  have hvs : toString v ≠ "--brightness" := (intDigits v h0 h1).2.2
  have hda : ("--" ++ act) ≠ "--brightness" := by
    obtain rfl | rfl := hact <;> decide
  have e1 := tokenize_controlLight_bri t act v hq ht ha h0 h1
  have e2 := tokenize_controlLight_plain t act hq ht ha
  have e3 := tokenize_controlRoom_bri t act v hq ht ha h0 h1
  have e4 := tokenize_controlRoom_plain t act hq ht ha
  refine ⟨e1, ?_, e2, ?_, e3, ?_, e4, ?_⟩
  · rw [e1]; simp [countTok, htb, hvs, hda]
  · rw [e2]; simp [countTok, htb, hda]
  · rw [e3]; simp [countTok, htb, hvs, hda]
  · rw [e4]; simp [countTok, htb, hda]

/-- C8, witness at brightness 50 and at the edge value 0. -/
theorem c8_brightness_witness :
    (0 : Int) ≤ 50 ∧
    tokenize (controlLightCommand ⟨"Desk Lamp", "on", some 50, none, none⟩)
      = ["set", "light", "Desk Lamp", "--on", "--brightness", toString (50 : Int)] ∧
    countTok "--brightness" (tokenize (controlLightCommand ⟨"Desk Lamp", "on", some 50, none, none⟩)) = 1 ∧
    tokenize (controlRoomCommand ⟨"Office", "off", some 0, none, none⟩)
      = ["set", "room", "Office", "--off", "--brightness", toString (0 : Int)] := by
  have h := c8_brightness_flag "Desk Lamp" "on" 50
    (by decide) (by decide) (by decide) (Or.inl rfl) (by decide) (by decide)
  have h2 := c8_brightness_flag "Office" "off" 0
    (by decide) (by decide) (by decide) (Or.inr rfl) (by decide) (by decide)
  exact ⟨by decide, h.1, h.2.1, h2.2.2.2.2.1⟩

end OpenHue
